import Mathlib

/-!
Shallow embedding of the 4sale animals scraping pipeline
(main.py, DetailsScraper.py, SavingOnDrive.py) together with proofs
about its record filter, publish-date parsing, upload/cleanup logic,
folder resolution, chunking, concurrency gate and archival sink.
-/

namespace Scrape4Sale

/-! ## Python string primitives used by the pipeline -/

/-- Worker for Python str.split(): scan the characters once, keeping the
reversed current word in the accumulator; a whitespace character closes
the current word (if any), every other character extends it. -/
def pySplitAux : List Char → List Char → List (List Char)
  | [], [] => []
  | [], acc => [acc.reverse]
  | c :: cs, acc =>
    if c.isWhitespace then
      match acc with
      | [] => pySplitAux cs []
      | _ => acc.reverse :: pySplitAux cs []
    else pySplitAux cs (c :: acc)

/-- Python str.split() with no separator, on a character list: split on
runs of whitespace and drop empty pieces.  Used by main.py line 53 as
date_published.split(). -/
def pySplitList (cs : List Char) : List (List Char) :=
  pySplitAux cs []

/-- Python str.split() lifted to strings. -/
def pySplit (s : String) : List String :=
  (pySplitList s.data).map (fun l => ⟨l⟩)

/-- Python str.lower(): per-character lowercase (ASCII letters only are
affected, matching CPython on the tokens used by the scraper). -/
def pyLower (s : String) : String :=
  ⟨s.data.map Char.toLower⟩

/-- The date-portion of a timestamp string, following the specification
wording: the text before the first whitespace character. -/
def datePortion (s : String) : String :=
  ⟨s.data.takeWhile (fun c => !c.isWhitespace)⟩

/-! ## Listing records and the target-date filter (main.py scrape_automotive) -/

/-- One listing dictionary as it reaches the filter in main.py.  Only the
date_published key is inspected there; none models a Python None value
(the value stored when detail-page extraction failed).  The payload field
abstracts every other key of the dictionary. -/
structure Animal where
  date_published : Option String
  payload : Nat
deriving DecidableEq, Repr

/-- One evaluation of the filter condition of main.py line 53,
animal.get("date_published", "").split()[0] == self.yesterday.
Except.error models a raised exception: AttributeError when the stored
value is None, IndexError when split() returns an empty list. -/
def filterCond (yesterday : String) (a : Animal) : Except Unit Bool :=
  match a.date_published with
  | none => .error ()
  | some s =>
    match pySplit s with
    | [] => .error ()
    | t :: _ => .ok (t == yesterday)

/-- The per-page record loop of main.py lines 51-54: walk the animals in
order, appending matches to animal_data; a raised filter exception stops
the loop.  Returns the appended records and whether the loop raised. -/
def processAnimals (yesterday : String) : List Animal → List Animal × Bool
  | [] => ([], false)
  | a :: rest =>
    match filterCond yesterday a with
    | .error _ => ([], true)
    | .ok true =>
      let r := processAnimals yesterday rest
      (a :: r.1, r.2)
    | .ok false => processAnimals yesterday rest

/-- A record has a well-defined date-portion: its date_published value is
a string whose first character exists and is not whitespace. -/
def hasDatePortion (a : Animal) : Bool :=
  match a.date_published with
  | none => false
  | some s =>
    match s.data with
    | [] => false
    | c :: _ => !c.isWhitespace

/-- The retention condition in the specification wording: the
date-portion of the record equals the target date string. -/
def keepAnimal (yesterday : String) (a : Animal) : Bool :=
  datePortion (a.date_published.getD "") == yesterday

/-! ## The category page walk (main.py scrape_automotive, lines 44-58) -/

/-- Outcome of one call of DetailsScraping.get_animal_details for a page:
either the list of listing dictionaries, or a raised exception (for
example a browser-launch failure escaping the method). -/
inductive FetchResult where
  | ok (animals : List Animal)
  | err
deriving DecidableEq, Repr

/-- Observable events of the page loop: a page request, the fixed
inter-page sleep (asyncio.sleep(self.page_delay)), and the logged
per-page exception handler. -/
inductive Ev where
  | goto (url : String)
  | sleepPage
  | pageError (url : String)
deriving DecidableEq, Repr

/-- Python str.format with a single positional argument on a character
list: substitute the argument for the first \x7b\x7d placeholder. -/
def pyFormat1 (sub : List Char) : List Char → List Char
  | [] => []
  | '\x7b' :: '\x7d' :: rest => sub ++ rest
  | c :: rest => c :: pyFormat1 sub rest

/-- main.py line 47: url = url_template.format(page). -/
def urlFormat (template : String) (page : Nat) : String :=
  ⟨pyFormat1 (toString page).data template.data⟩

/-- The body of a single page iteration: fetch, then run the filter loop.
Returns the records appended to animal_data and whether an exception was
raised (by the fetch or by the filter). -/
def runPage (yesterday : String) (f : FetchResult) : List Animal × Bool :=
  match f with
  | .err => ([], true)
  | .ok animals => processAnimals yesterday animals

/-- Whether a page iteration completes without a caught exception. -/
def pageClean (yesterday : String) (f : FetchResult) : Bool :=
  !(runPage yesterday f).2

/-- The inner page loop of scrape_automotive for one url template: for
each page number, format the url, fetch and filter; on success sleep the
inter-page delay (the sleep sits inside the try block, after the record
loop), on a caught exception log and continue.  The fetch oracle maps a
formatted url to its outcome. -/
def runPages (yesterday : String) (fetch : String → FetchResult)
    (template : String) : List Nat → List Animal × List Ev
  | [] => ([], [])
  | p :: rest =>
    let url := urlFormat template p
    let r := runPage yesterday (fetch url)
    let evs := if r.2 then [Ev.goto url, Ev.pageError url]
      else [Ev.goto url, Ev.sleepPage]
    let rec_ := runPages yesterday fetch template rest
    (r.1 ++ rec_.1, evs ++ rec_.2)

/-- The full walk of one category: iterate over the (template, page
count) pairs, paging 1..count for each (Python range(1, page_count+1)).
Returns the accumulated animal_data and the event trace. -/
def runCategory (yesterday : String) (fetch : String → FetchResult) :
    List (String × Nat) → List Animal × List Ev
  | [] => ([], [])
  | (template, count) :: rest =>
    let r := runPages yesterday fetch template (List.range' 1 count)
    let r2 := runCategory yesterday fetch rest
    (r.1 ++ r2.1, r.2 ++ r2.2)

/-- All page urls of a category walk, in request order. -/
def allUrls (urls : List (String × Nat)) : List String :=
  urls.flatMap (fun tc => (List.range' 1 tc.2).map (urlFormat tc.1))

/-- The delay discipline the claim asserts, as a predicate on traces:
between any two page requests a sleep event must occur.  The Boolean
argument records whether a sleep has elapsed since the last request. -/
def delaysBetweenPages : List Ev → Bool → Bool
  | [], _ => true
  | Ev.goto _ :: rest, ok => ok && delaysBetweenPages rest false
  | Ev.sleepPage :: rest, _ => delaysBetweenPages rest true
  | Ev.pageError _ :: rest, ok => delaysBetweenPages rest ok

/-- The claim as stated: before every page request after the first, the
inter-page delay has elapsed. -/
def delayBeforeEveryNextPage (evs : List Ev) : Bool :=
  delaysBetweenPages evs true

/-! ## Publish-date parsing (DetailsScraper.py scrape_publish_date) -/

/-- Gregorian civil date from days since 1970-01-01 (proleptic), the
standard era-based algorithm; models the calendar datetime works with. -/
def civilFromDays (z0 : Int) : Int × Nat × Nat :=
  let z := z0 + 719468
  let era := z.fdiv 146097
  let doe := (z - era * 146097).toNat
  let yoe := (doe - doe / 1460 + doe / 36524 - doe / 146096) / 365
  let y := (yoe : Int) + era * 400
  let doy := doe - (365 * yoe + yoe / 4 - yoe / 100)
  let mp := (5 * doy + 2) / 153
  let d := doy - (153 * mp + 2) / 5 + 1
  let m := if mp < 10 then mp + 3 else mp - 9
  (if m ≤ 2 then y + 1 else y, m, d)

/-- Days since 1970-01-01 of a Gregorian civil date (inverse of
civilFromDays on valid dates). -/
def daysFromCivil (y0 : Int) (m d : Nat) : Int :=
  let y := if m ≤ 2 then y0 - 1 else y0
  let era := y.fdiv 400
  let yoe := (y - era * 400).toNat
  let mp := if m ≥ 3 then m - 3 else m + 9
  let doy := (153 * mp + 2) / 5 + d - 1
  let doe := yoe * 365 + yoe / 4 - yoe / 100 + doy
  era * 146097 + (doe : Int) - 719468

/-- Number of days of a Gregorian month. -/
def daysInMonth (y : Int) (m : Nat) : Nat :=
  if m = 2 then (if y % 4 = 0 ∧ (y % 100 ≠ 0 ∨ y % 400 = 0) then 29 else 28)
  else if m = 4 ∨ m = 6 ∨ m = 9 ∨ m = 11 then 30 else 31

/-- Two-digit zero padding, as in strftime %m %d %H %M %S. -/
def zfill2 (n : Nat) : String :=
  if n < 10 then "0" ++ toString n else toString n

/-- strftime("%Y-%m-%d %H:%M:%S") on a timestamp given as seconds since
the epoch. -/
def fmtTimestamp (t : Int) : String :=
  let days := t.fdiv 86400
  let secs := (t - days * 86400).toNat
  let c := civilFromDays days
  toString c.1 ++ "-" ++ zfill2 c.2.1 ++ "-" ++ zfill2 c.2.2 ++ " " ++
    zfill2 (secs / 3600) ++ ":" ++ zfill2 ((secs / 60) % 60) ++ ":" ++
    zfill2 (secs % 60)

/-- dateutil relativedelta(months=n) subtraction: walk the month index
back by n, clamping the day of month to the target month length. -/
def subMonths (t : Int) (n : Nat) : Int :=
  let days := t.fdiv 86400
  let secs := t - days * 86400
  let c := civilFromDays days
  let total := c.1 * 12 + (c.2.1 : Int) - 1 - n
  let y2 := total.fdiv 12
  let m2 := (total - y2 * 12).toNat + 1
  let d2 := min c.2.2 (daysInMonth y2 m2)
  daysFromCivil y2 m2 d2 * 86400 + secs

/-- Python int() on a digit run. -/
def natOfDigits (ds : List Char) : Nat :=
  ds.foldl (fun n c => 10 * n + (c.toNat - 48)) 0

/-- The ordered alternation of the unit group in the pattern of
DetailsScraper.py line 134. -/
def unitAlternatives : List String :=
  ["Second", "Minute", "Hour", "Day", "Month", "شهر", "ثانية", "دقيقة", "ساعة", "يوم"]

/-- Match one alternation branch case-insensitively against a prefix of
the remaining input (re.IGNORECASE). -/
def altMatches (cs : List Char) (alt : String) : Bool :=
  (cs.take alt.data.length).map Char.toLower == alt.data.map Char.toLower

/-- Try the alternation branches in order at the current position and
return the matched text (the regex group 2 is the input slice, in its
original case). -/
def findUnitMatch (cs : List Char) : Option (List Char) :=
  (unitAlternatives.find? (altMatches cs)).map (fun u => cs.take u.data.length)

/-- Try the whole pattern at the current position: one-or-more digits,
one-or-more whitespace characters, then a unit token.  Greedy runs are
exact here because digits and whitespace cannot begin a unit token. -/
def matchAt (cs : List Char) : Option (Nat × String) :=
  let digits := cs.takeWhile Char.isDigit
  if digits.isEmpty then none
  else
    let rest1 := cs.dropWhile Char.isDigit
    if (rest1.takeWhile Char.isWhitespace).isEmpty then none
    else
      let rest2 := rest1.dropWhile Char.isWhitespace
      (findUnitMatch rest2).map (fun u => (natOfDigits digits, ⟨u⟩))

/-- re.search: try the pattern at each start position, leftmost first. -/
def reSearch : List Char → Option (Nat × String)
  | [] => none
  | c :: cs =>
    match matchAt (c :: cs) with
    | some r => some r
    | none => reSearch cs

/-- re.search(pattern, relative_time, re.IGNORECASE) of
DetailsScraper.py line 135, returning (int(group(1)), group(2)). -/
def regexSearch (s : String) : Option (Nat × String) :=
  reSearch s.data

/-- The unit conversion chain of DetailsScraper.py lines 144-155, applied
to the already lowercased matched unit. -/
def applyUnit (now : Int) (n : Nat) (unit : String) : String :=
  if unit = "second" ∨ unit = "ثانية" then fmtTimestamp (now - n)
  else if unit = "minute" ∨ unit = "دقيقة" then fmtTimestamp (now - n * 60)
  else if unit = "hour" ∨ unit = "ساعة" then fmtTimestamp (now - n * 3600)
  else if unit = "day" ∨ unit = "يوم" then fmtTimestamp (now - n * 86400)
  else if unit = "month" ∨ unit = "شهر" then fmtTimestamp (subMonths now n)
  else "Unsupported time unit found."

/-- All lowercase unit tokens handled by the conversion chain. -/
def handledUnits : List String :=
  ["second", "ثانية", "minute", "دقيقة", "hour", "ساعة", "day", "يوم", "month", "شهر"]

/-- DetailsScraping.scrape_publish_date (DetailsScraper.py lines
133-157), with datetime.now() passed in as epoch seconds. -/
def scrape_publish_date (now : Int) (relative_time : String) : String :=
  match regexSearch relative_time with
  | none => "Invalid Relative Time"
  | some nu => applyUnit now nu.1 (pyLower nu.2)

/-! ## Detail-page extraction (DetailsScraper.py scrape_more_details) -/

/-- Outcome of the body of one field extractor: either it ran to
completion with this value (element misses already folded into the
value, for example the price sentinel "0 KWD"), or an operation inside
it raised. -/
inductive ExtractorOutcome (α : Type) where
  | val (a : α)
  | raise
deriving DecidableEq, Repr

/-- The non-empty result of scrape_submitter_details: the dictionary
with submitter, ads and membership keys built from the first wrapper
element. -/
structure SubmitterInfo where
  submitter : Option String
  ads : String
  membership : String
deriving DecidableEq, Repr

/-- Oracle for one detail-page attempt: what each extractor body (and
the initial page.goto) would do on this page.  For
scrape_submitter_details, none models the empty dictionary returned
when no wrapper element exists. -/
structure DetailPage where
  nav : ExtractorOutcome Unit
  id : ExtractorOutcome (Option String)
  description : ExtractorOutcome (Option String)
  image : ExtractorOutcome (Option String)
  price : ExtractorOutcome String
  address : ExtractorOutcome String
  additional_details : ExtractorOutcome (List String)
  specifications : ExtractorOutcome (List (String × String))
  views_no : ExtractorOutcome (Option String)
  submitter_details : ExtractorOutcome (Option SubmitterInfo)
  phone : ExtractorOutcome (Option String)
  relative_date : ExtractorOutcome (Option String)
deriving DecidableEq, Repr

/-- page.goto at DetailsScraper.py line 285: no handler, a failure
raises out of the attempt. -/
def scrape_goto (pg : DetailPage) : Except Unit Unit :=
  match pg.nav with
  | .val v => .ok v
  | .raise => .error ()

/-- DetailsScraping.scrape_id (lines 170-183): no internal try/except,
a raised operation propagates. -/
def scrape_id (pg : DetailPage) : Except Unit (Option String) :=
  match pg.id with
  | .val v => .ok v
  | .raise => .error ()

/-- Modelled from the spec: DetailsScraping.scrape_description is called
at DetailsScraper.py line 288 but is not defined anywhere in the
repository; the spec describes each field extractor as an opaque
function returning an optional string that may itself fail.  At the call
site (which is in the source) there is no handler, so a failure raises
out of the attempt. -/
def scrape_description (pg : DetailPage) : Except Unit (Option String) :=
  match pg.description with
  | .val v => .ok v
  | .raise => .error ()

/-- DetailsScraping.scrape_image (lines 186-193): internal try/except
returning None on failure. -/
def scrape_image (pg : DetailPage) : Except Unit (Option String) :=
  match pg.image with
  | .val v => .ok v
  | .raise => .ok none

/-- DetailsScraping.scrape_price (lines 196-199): no internal
try/except, a raised operation propagates; an element miss yields the
sentinel "0 KWD" (folded into the oracle value). -/
def scrape_price (pg : DetailPage) : Except Unit String :=
  match pg.price with
  | .val v => .ok v
  | .raise => .error ()

/-- DetailsScraping.scrape_address (lines 202-208): no internal
try/except. -/
def scrape_address (pg : DetailPage) : Except Unit String :=
  match pg.address with
  | .val v => .ok v
  | .raise => .error ()

/-- DetailsScraping.scrape_additionalDetails_list (lines 211-221): no
internal try/except. -/
def scrape_additionalDetails_list (pg : DetailPage) : Except Unit (List String) :=
  match pg.additional_details with
  | .val v => .ok v
  | .raise => .error ()

/-- DetailsScraping.scrape_specifications (lines 224-238): no internal
try/except. -/
def scrape_specifications (pg : DetailPage) : Except Unit (List (String × String)) :=
  match pg.specifications with
  | .val v => .ok v
  | .raise => .error ()

/-- DetailsScraping.scrape_views_no (lines 160-167): internal try/except
returning None on failure. -/
def scrape_views_no (pg : DetailPage) : Except Unit (Option String) :=
  match pg.views_no with
  | .val v => .ok v
  | .raise => .ok none

/-- DetailsScraping.scrape_submitter_details (lines 251-275): no
internal try/except. -/
def scrape_submitter_details (pg : DetailPage) : Except Unit (Option SubmitterInfo) :=
  match pg.submitter_details with
  | .val v => .ok v
  | .raise => .error ()

/-- DetailsScraping.scrape_phone_number (lines 241-248): internal
try/except returning None on failure. -/
def scrape_phone_number (pg : DetailPage) : Except Unit (Option String) :=
  match pg.phone with
  | .val v => .ok v
  | .raise => .ok none

/-- DetailsScraping.scrape_relative_date (lines 113-130): internal
try/except returning None on failure. -/
def scrape_relative_date (pg : DetailPage) : Except Unit (Option String) :=
  match pg.relative_date with
  | .val v => .ok v
  | .raise => .ok none

/-- The dictionary returned by a successful scrape_more_details attempt
(lines 301-316). -/
structure DetailRecord where
  id : Option String
  description : Option String
  image : Option String
  price : String
  address : String
  additional_details : List String
  specifications : List (String × String)
  views_no : Option String
  submitter : Option String
  ads : Option String
  membership : Option String
  phone : Option String
  relative_date : Option String
  date_published : Option String
deriving DecidableEq, Repr

/-- One attempt of DetailsScraping.scrape_more_details (lines 280-316):
navigate, run every extractor in source order, then derive
date_published from the relative date.  Any propagated extractor
exception aborts the attempt (it is caught by the attempt-level except
of line 318). -/
def scrapeMoreDetailsAttempt (now : Int) (pg : DetailPage) : Except Unit DetailRecord := do
  let _ ← scrape_goto pg
  let idv ← scrape_id pg
  let description ← scrape_description pg
  let image ← scrape_image pg
  let price ← scrape_price pg
  let address ← scrape_address pg
  let additional_details ← scrape_additionalDetails_list pg
  let specifications ← scrape_specifications pg
  let views_no ← scrape_views_no pg
  let submitter_details ← scrape_submitter_details pg
  let phone ← scrape_phone_number pg
  let relative_date ← scrape_relative_date pg
  let date_published := match relative_date with
    | some r => some (scrape_publish_date now r)
    | none => none
  pure {
    id := idv
    description := description
    image := image
    price := price
    address := address
    additional_details := additional_details
    specifications := specifications
    views_no := views_no
    submitter := match submitter_details with
      | some info => info.submitter
      | none => none
    ads := submitter_details.map (fun info => info.ads)
    membership := submitter_details.map (fun info => info.membership)
    phone := phone
    relative_date := relative_date
    date_published := date_published }

/-- DetailsScraping.scrape_more_details with its retry loop (retries=3,
one fresh page oracle per attempt): the first successful attempt returns
its dictionary; exhaustion returns the empty dictionary, modelled as
none (every subsequent .get then yields None). -/
def scrape_more_details (now : Int) : List DetailPage → Option DetailRecord
  | [] => none
  | pg :: rest =>
    match scrapeMoreDetailsAttempt now pg with
    | .ok r => some r
    | .error _ => scrape_more_details now rest

/-- Folding of a guarded extractor oracle into the value the attempt
sees: the value on completion, None on a caught internal failure. -/
def caughtOrNone (o : ExtractorOutcome (Option String)) : Option String :=
  match o with
  | .val v => v
  | .raise => none

/-! ## Upload with retry and chunk cleanup (main.py lines 80-102, 155-163) -/

/-- self.upload_retries of main.py line 21. -/
def uploadRetries : Nat := 3

/-- The per-file attempt loop of upload_files_with_retry (lines 84-100):
i is the current attempt index, the second argument the attempts left.
onDisk is os.path.exists(file) (stable across the attempts in this
model) and ok i tells whether the save_files call of attempt i would
succeed.  Returns (upload confirmed, number of save_files calls): a
success appends and breaks; a failure retries; a missing file makes no
call and no error, leaving the loop to idle through its attempts. -/
def uploadLoop (onDisk : Bool) (ok : Nat → Bool) : Nat → Nat → Bool × Nat
  | _, 0 => (false, 0)
  | i, rem + 1 =>
    if onDisk then
      if ok i then (true, 1)
      else
        let r := uploadLoop onDisk ok (i + 1) rem
        (r.1, r.2 + 1)
    else uploadLoop onDisk ok (i + 1) rem

/-- NormalMainScraper.upload_files_with_retry (lines 80-102): for each
file run the attempt loop; the returned list collects, in order, the
files whose upload was confirmed.  disk is the set of files present,
ok f i whether the save_files call for f at attempt i succeeds. -/
def upload_files_with_retry (disk : List String) (ok : String → Nat → Bool) :
    List String → List String
  | [] => []
  | f :: rest =>
    let r := uploadLoop (disk.contains f) (ok f) 0 uploadRetries
    if r.1 then f :: upload_files_with_retry disk ok rest
    else upload_files_with_retry disk ok rest

/-- Number of save_files calls issued for one file by
upload_files_with_retry. -/
def uploadCalls (disk : List String) (ok : String → Nat → Bool) (f : String) : Nat :=
  (uploadLoop (disk.contains f) (ok f) 0 uploadRetries).2

/-- os.remove(file) of main.py line 160 with its enclosing
try/except: remove the file; a FileNotFoundError is caught and logged,
leaving the disk unchanged. -/
def osRemove (disk : List String) (f : String) : List String :=
  disk.filter (fun g => g != f)

/-- The cleanup loop of main.py lines 158-163: remove every file of the
pending list. -/
def cleanup_files (disk : List String) (pending : List String) : List String :=
  pending.foldl osRemove disk

/-- The chunk finalisation of main.py lines 155-163: run
upload_files_with_retry on the pending files (its returned subset is
not consulted afterwards), then remove every pending file.  Returns the
uploaded subset and the disk after cleanup. -/
def chunkFinalize (disk : List String) (ok : String → Nat → Bool)
    (pending : List String) : List String × List String :=
  (upload_files_with_retry disk ok pending, cleanup_files disk pending)

/-! ## Drive folder resolution (SavingOnDrive.py, main.py lines 117-121) -/

/-- Drive state under the fixed parent container: the named folders with
their identifiers, in creation order, and the next fresh identifier. -/
structure DriveState where
  folders : List (String × Nat)
  nextId : Nat
deriving DecidableEq, Repr

/-- SavingOnDrive.get_folder_id (lines 28-48): query the folders by name
under the parent and return the first identifier found, None
otherwise. -/
def get_folder_id (st : DriveState) (name : String) : Option Nat :=
  (st.folders.find? (fun p => p.1 == name)).map (fun p => p.2)

/-- SavingOnDrive.create_folder (lines 51-68): create a folder with the
given name under the parent and return its identifier. -/
def create_folder (st : DriveState) (name : String) : Nat × DriveState :=
  (st.nextId, ⟨st.folders ++ [(name, st.nextId)], st.nextId + 1⟩)

/-- main.py lines 117-121: folder_id = get_folder_id(yesterday); if
absent, create it. -/
def resolveRunFolder (st : DriveState) (name : String) : Nat × DriveState :=
  match get_folder_id st name with
  | some fid => (fid, st)
  | none => create_folder st name

/-- Number of folders with the given name under the parent. -/
def folderCount (st : DriveState) (name : String) : Nat :=
  st.folders.countP (fun p => p.1 == name)

/-! ## Chunking and the concurrency gate (main.py lines 126-142) -/

/-- Python range(0, stop, step) for positive step (range raises on step
zero; the scraper uses step = chunk_size = 2). -/
def pyRangeStep (stop step : Nat) : List Nat :=
  if step = 0 then [] else (List.range ((stop + step - 1) / step)).map (fun i => i * step)

/-- The chunk comprehension of main.py lines 127-130:
items i to i+size for i in range(0, len(items), size). -/
def chunkCategories (l : List α) (size : Nat) : List (List α) :=
  (pyRangeStep l.length size).map (fun i => (l.drop i).take size)

/-- State of the asyncio.Semaphore(max_concurrent_links) gate together
with the walkers currently inside their async-with block: the identifiers
of running walkers and the free slots. -/
structure WalkerState where
  running : List Nat
  avail : Nat
deriving DecidableEq, Repr

/-- Transitions of the capacity gate: a walker may enter its page loop
only when a slot is free, and leaves by releasing its slot. -/
inductive SemStep : WalkerState → WalkerState → Prop where
  | acquire (t : Nat) (s : WalkerState) (h : 0 < s.avail) :
      SemStep s ⟨t :: s.running, s.avail - 1⟩
  | release (t : Nat) (s : WalkerState) (h : t ∈ s.running) :
      SemStep s ⟨s.running.erase t, s.avail + 1⟩

/-- States reachable from the initial gate of capacity cap (no walker
running, all slots free). -/
inductive SemReachable (cap : Nat) : WalkerState → Prop where
  | init : SemReachable cap ⟨[], cap⟩
  | step {s s' : WalkerState} : SemReachable cap s → SemStep s s' →
      SemReachable cap s'

/-! ## Archival sink (main.py save_to_excel, lines 63-77) -/

/-- The spreadsheet artifact: its path and its rows (one per record, as
pandas DataFrame(animal_data) writes them). -/
structure ExcelFile where
  filename : String
  rows : List Animal
deriving DecidableEq, Repr

/-- NormalMainScraper.save_to_excel (lines 63-77): no file for an empty
record list; otherwise write one file named after the category with one
row per record; a write failure (writeOk false, the except branch)
yields None exactly like the empty case. -/
def save_to_excel (automotive_name : String) (animal_data : List Animal)
    (writeOk : Bool) : Option ExcelFile :=
  if animal_data.isEmpty then none
  else if writeOk then some ⟨automotive_name ++ ".xlsx", animal_data⟩
  else none

/-! ## Helper lemmas -/

theorem pySplitAux_front (cs : List Char) : ∀ acc : List Char, acc ≠ [] →
    pySplitAux cs acc =
      (acc.reverse ++ cs.takeWhile (fun x => !x.isWhitespace)) ::
        pySplitAux (cs.dropWhile (fun x => !x.isWhitespace)) [] := by
  induction cs with
  | nil =>
    intro acc h
    match acc, h with
    | a :: acc, _ => simp [pySplitAux]
  | cons c cs ih =>
    intro acc h
    by_cases hc : c.isWhitespace
    · match acc, h with
      | a :: acc, _ =>
        simp only [pySplitAux, hc, if_true, List.takeWhile_cons, List.dropWhile_cons,
          Bool.not_eq_eq_eq_not, Bool.not_true]
        simp [hc]
    · simp only [pySplitAux, hc, if_false, List.takeWhile_cons, List.dropWhile_cons]
      rw [ih (c :: acc) (by simp)]
      simp [hc]

theorem pySplitList_cons_of_not_ws (c : Char) (cs : List Char)
    (hc : c.isWhitespace = false) :
    pySplitList (c :: cs) =
      (c :: cs.takeWhile (fun x => !x.isWhitespace)) ::
        pySplitAux (cs.dropWhile (fun x => !x.isWhitespace)) [] := by
  show pySplitAux (c :: cs) [] = _
  rw [pySplitAux]
  simp only [hc, Bool.false_eq_true, if_false]
  rw [pySplitAux_front cs [c] (by simp)]
  simp

/-- For a record with a well-defined date-portion the filter condition
evaluates without exception to the specification-level condition. -/
theorem filterCond_of_hasDatePortion (yesterday : String) (a : Animal)
    (h : hasDatePortion a = true) :
    filterCond yesterday a = .ok (keepAnimal yesterday a) := by
  obtain ⟨dp, pl⟩ := a
  match dp with
  | none => simp [hasDatePortion] at h
  | some s =>
    match hs : s.data with
    | [] => simp [hasDatePortion, hs] at h
    | c :: cs =>
      simp only [hasDatePortion, hs] at h
      have hc : c.isWhitespace = false := by
        cases hw : c.isWhitespace
        · rfl
        · rw [hw] at h; exact absurd h (by simp)
      simp only [filterCond, pySplit, keepAnimal, datePortion, Option.getD_some]
      rw [hs, pySplitList_cons_of_not_ws c cs hc]
      simp only [List.map_cons]
      rw [List.takeWhile_cons_of_pos (by simp [hc])]

/-- The filter condition raises on a None or empty date_published. -/
theorem filterCond_raises (yesterday : String) (a : Animal)
    (h : a.date_published = none ∨ a.date_published = some "") :
    filterCond yesterday a = .error () := by
  rcases h with h | h <;> unfold filterCond <;> rw [h]
  rfl

/-- The record loop on a list of records with well-defined date-portions
keeps exactly the matching records, in order, without raising. -/
theorem processAnimals_all_valid (yesterday : String) :
    ∀ animals : List Animal, (∀ a ∈ animals, hasDatePortion a = true) →
    processAnimals yesterday animals =
      (animals.filter (keepAnimal yesterday), false) := by
  intro animals
  induction animals with
  | nil => intro _; rfl
  | cons a rest ih =>
    intro h
    unfold processAnimals
    rw [filterCond_of_hasDatePortion yesterday a (h a (by simp))]
    have hrest := ih (fun x hx => h x (by simp [hx]))
    cases hk : keepAnimal yesterday a <;>
      simp [List.filter_cons, hk, hrest]

/-- The record loop on valid records followed by an offending record:
the matches among the leading records are already appended, the
exception then stops the page loop. -/
theorem processAnimals_append_bad (yesterday : String) (bad : Animal)
    (hbad : bad.date_published = none ∨ bad.date_published = some "") :
    ∀ (good rest : List Animal), (∀ a ∈ good, hasDatePortion a = true) →
    processAnimals yesterday (good ++ bad :: rest) =
      (good.filter (keepAnimal yesterday), true) := by
  intro good
  induction good with
  | nil =>
    intro rest _
    rw [List.nil_append]
    unfold processAnimals
    rw [filterCond_raises yesterday bad hbad]
    rfl
  | cons a g ih =>
    intro rest h
    rw [List.cons_append]
    unfold processAnimals
    rw [filterCond_of_hasDatePortion yesterday a (h a (by simp))]
    have hg := ih rest (fun x hx => h x (by simp [hx]))
    cases hk : keepAnimal yesterday a <;>
      simp [List.filter_cons, hk, hg]

/-- The trace of the inner page loop decomposes page by page: every page
request is followed by the sleep exactly when the page was processed
without a caught exception. -/
theorem runPages_trace (yesterday : String) (fetch : String → FetchResult)
    (template : String) : ∀ ps : List Nat,
    (runPages yesterday fetch template ps).2 =
      (ps.map (urlFormat template)).flatMap (fun u =>
        Ev.goto u :: (if pageClean yesterday (fetch u) then [Ev.sleepPage]
          else [Ev.pageError u])) := by
  intro ps
  induction ps with
  | nil => rfl
  | cons p rest ih =>
    unfold runPages
    cases hr : (runPage yesterday (fetch (urlFormat template p))).2 <;>
      simp [pageClean, hr, ih]

/-! ## Claim C3 -/

/-- Claim C3: for every page result whose records all carry a
well-defined date-portion, the Category Page Walker retains a record if
and only if the date-portion of its date_published field equals the
target date string, and every differing record is dropped without
error. -/
theorem walker_retains_exactly_target_date (yesterday : String)
    (animals : List Animal) (h : ∀ a ∈ animals, hasDatePortion a = true) :
    processAnimals yesterday animals =
      (animals.filter (keepAnimal yesterday), false) :=
  processAnimals_all_valid yesterday animals h

/-- Witness for C3 at a concrete page: the target-date record is kept,
the previous-day record is dropped, and no exception is raised. -/
theorem walker_retains_exactly_target_date_witness :
    processAnimals "2024-06-01"
        [⟨some "2024-06-01 10:00:00", 0⟩, ⟨some "2024-05-31 23:59:59", 1⟩] =
      ([⟨some "2024-06-01 10:00:00", 0⟩, ⟨some "2024-05-31 23:59:59", 1⟩].filter
          (keepAnimal "2024-06-01"), false) :=
  walker_retains_exactly_target_date "2024-06-01"
    [⟨some "2024-06-01 10:00:00", 0⟩, ⟨some "2024-05-31 23:59:59", 1⟩]
    (by decide)

/-! ## Claim C10 -/

/-- Claim C10: the target-date filter is only total on non-empty string
values.  A record whose date_published is None or the empty string makes
the filter raise; the per-page handler catches the exception, the
offending page keeps only the records accepted before the offending one
(the rest of that page is silently lost), and the walk proceeds to the
next page. -/
theorem filter_gap_loses_page_tail (yesterday : String)
    (good rest : List Animal) (bad : Animal)
    (hgood : ∀ a ∈ good, hasDatePortion a = true)
    (hbad : bad.date_published = none ∨ bad.date_published = some "") :
    processAnimals yesterday (good ++ bad :: rest) =
      (good.filter (keepAnimal yesterday), true)
    ∧ ∀ (template : String) (fetch : String → FetchResult),
        fetch (urlFormat template 1) = .ok (good ++ bad :: rest) →
        (runCategory yesterday fetch [(template, 2)]).1 =
          good.filter (keepAnimal yesterday) ++
            (runPage yesterday (fetch (urlFormat template 2))).1 := by
  have hp := processAnimals_append_bad yesterday bad hbad good rest hgood
  refine ⟨hp, ?_⟩
  intro template fetch hf
  show (runPages yesterday fetch template (List.range' 1 2)).1 ++
      (runCategory yesterday fetch []).1 = _
  have : List.range' 1 2 = [1, 2] := rfl
  rw [this]
  simp [runPages, runCategory, runPage, hf, hp]

/-- Witness for C10: a concrete page with one valid matching record, an
empty-string record, and a trailing record; plus a concrete two-page
walk showing the next page is still processed. -/
theorem filter_gap_loses_page_tail_witness :
    processAnimals "2024-06-01"
        ([⟨some "2024-06-01 08:00:00", 0⟩] ++ ⟨some "", 7⟩ :: [⟨some "2024-06-01 09:00:00", 2⟩]) =
      ([⟨some "2024-06-01 08:00:00", 0⟩].filter (keepAnimal "2024-06-01"), true)
    ∧ (runCategory "2024-06-01"
        (fun u => if u == "p1"
          then FetchResult.ok
            [⟨some "2024-06-01 08:00:00", 0⟩, ⟨some "", 7⟩, ⟨some "2024-06-01 09:00:00", 2⟩]
          else FetchResult.ok []) [("p\x7b\x7d", 2)]).1 =
      [⟨some "2024-06-01 08:00:00", 0⟩].filter (keepAnimal "2024-06-01") ++
        (runPage "2024-06-01"
          ((fun u => if u == "p1"
            then FetchResult.ok
              [⟨some "2024-06-01 08:00:00", 0⟩, ⟨some "", 7⟩, ⟨some "2024-06-01 09:00:00", 2⟩]
            else FetchResult.ok []) (urlFormat "p\x7b\x7d" 2))).1 := by
  have h := filter_gap_loses_page_tail "2024-06-01"
    [⟨some "2024-06-01 08:00:00", 0⟩] [⟨some "2024-06-01 09:00:00", 2⟩] ⟨some "", 7⟩
    (by decide) (Or.inr rfl)
  exact ⟨h.1, h.2 "p\x7b\x7d" _ (by rfl)⟩

/-! ## Claim C9 -/

/-- Counterexample for C9 as stated: with both pages of a category
failing (their exceptions caught by the per-page handler), the trace
requests page 2 immediately after the caught error of page 1 — no sleep
event separates the two page requests, so the inter-page delay does not
elapse after a failed page. -/
theorem delay_after_every_page_counterexample :
    (runCategory "2024-06-01" (fun _ => FetchResult.err) [("p\x7b\x7d", 2)]).2 =
      [Ev.goto "p1", Ev.pageError "p1", Ev.goto "p2", Ev.pageError "p2"]
    ∧ delayBeforeEveryNextPage
        (runCategory "2024-06-01" (fun _ => FetchResult.err) [("p\x7b\x7d", 2)]).2 = false :=
  ⟨rfl, rfl⟩

/-- Claim C9 amended: the inter-page sleep sits inside the try block
after the record loop, so it elapses after a page exactly when that
page was processed without a caught exception; after a caught
per-page exception the next page is requested without the delay.  The
trace decomposes page by page accordingly. -/
theorem delay_exactly_after_clean_pages (yesterday : String)
    (fetch : String → FetchResult) (urls : List (String × Nat)) :
    (runCategory yesterday fetch urls).2 =
      (allUrls urls).flatMap (fun u =>
        Ev.goto u :: (if pageClean yesterday (fetch u) then [Ev.sleepPage]
          else [Ev.pageError u])) := by
  induction urls with
  | nil => rfl
  | cons tc rest ih =>
    obtain ⟨template, count⟩ := tc
    show (runPages yesterday fetch template (List.range' 1 count)).2 ++
        (runCategory yesterday fetch rest).2 = _
    rw [runPages_trace, ih]
    unfold allUrls
    rw [List.flatMap_cons, List.flatMap_append]

/-! ## Claim C2 -/

/-- A concrete detail page on which only the price extractor body
raises; every other extractor would return a value. -/
def pagePriceRaises : DetailPage where
  nav := .val ()
  id := .val (some "123")
  description := .val (some "desc")
  image := .val (some "img.jpg")
  price := .raise
  address := .val "Salmiya"
  additional_details := .val []
  specifications := .val []
  views_no := .val (some "5")
  submitter_details := .val none
  phone := .val none
  relative_date := .val none

/-- Counterexample for C2 as stated: a failure inside the price
extractor (which has no internal handler, DetailsScraper.py lines
196-199) aborts the whole attempt instead of yielding a sentinel for
that field only, and with every attempt failing the same way the
returned record is the empty dictionary — it does not contain the
values of the non-failing extractors (for example the id "123"). -/
theorem extractor_failure_aborts_attempt :
    scrapeMoreDetailsAttempt 0 pagePriceRaises = Except.error ()
    ∧ scrape_more_details 0 [pagePriceRaises, pagePriceRaises, pagePriceRaises] = none :=
  ⟨rfl, rfl⟩

/-- Claim C2 amended: only the image, views, phone and relative-date
extractors catch their internal failures, each yielding None for its
field only; provided no other extractor body (navigation, id,
description, price, address, feature tags, specifications, submitter
details) raises, the attempt completes and the assembled record carries
the value of every non-failing extractor, with None for each failing
guarded one. -/
theorem guarded_extractors_fail_independently (now : Int)
    (idv descv : Option String) (pricev addrv : String)
    (addv : List String) (specv : List (String × String))
    (sdv : Option SubmitterInfo)
    (img vno ph rd : ExtractorOutcome (Option String)) :
    scrapeMoreDetailsAttempt now
      { nav := .val (), id := .val idv, description := .val descv, image := img,
        price := .val pricev, address := .val addrv,
        additional_details := .val addv, specifications := .val specv,
        views_no := vno, submitter_details := .val sdv, phone := ph,
        relative_date := rd } =
      Except.ok {
        id := idv
        description := descv
        image := caughtOrNone img
        price := pricev
        address := addrv
        additional_details := addv
        specifications := specv
        views_no := caughtOrNone vno
        submitter := match sdv with
          | some info => info.submitter
          | none => none
        ads := sdv.map (fun info => info.ads)
        membership := sdv.map (fun info => info.membership)
        phone := caughtOrNone ph
        relative_date := caughtOrNone rd
        date_published := (caughtOrNone rd).map (scrape_publish_date now) } := by
  cases img <;> cases vno <;> cases ph <;>
    rcases rd with _ | r | _ <;> first
      | rfl
      | (rename_i v; rcases v with _ | r <;> rfl)

/-! ## Claim C4 -/

/-- The conversion chain on the lowercased token day. -/
theorem applyUnit_day (now : Int) (n : Nat) :
    applyUnit now n "day" = fmtTimestamp (now - n * 86400) := rfl

/-- The conversion chain on the lowercased Arabic token for day. -/
theorem applyUnit_yawm (now : Int) (n : Nat) :
    applyUnit now n "يوم" = fmtTimestamp (now - n * 86400) := rfl

/-- Claim C4: a phrase whose leftmost match carries a day unit
(case-insensitive, English or Arabic) maps to now minus n days,
formatted %Y-%m-%d %H:%M:%S; a phrase with no number-unit match yields
exactly the Invalid Relative Time sentinel; and a recognized number
whose unit token is not in the conversion table yields exactly the
Unsupported time unit sentinel (inside scrape_publish_date this branch
is only reachable through the conversion chain itself, since the
pattern only ever captures table units). -/
theorem publish_date_parser_spec :
    (∀ (now : Int) (s : String) (n : Nat) (u : String),
        regexSearch s = some (n, u) →
        pyLower u = "day" ∨ pyLower u = "يوم" →
        scrape_publish_date now s = fmtTimestamp (now - n * 86400))
    ∧ (∀ (now : Int) (s : String), regexSearch s = none →
        scrape_publish_date now s = "Invalid Relative Time")
    ∧ (∀ (now : Int) (n : Nat) (u : String), u ∉ handledUnits →
        applyUnit now n u = "Unsupported time unit found.") := by
  refine ⟨?_, ?_, ?_⟩
  · intro now s n u hs hu
    unfold scrape_publish_date
    rw [hs]
    rcases hu with hu | hu <;> simp only [] <;> rw [hu]
    · exact applyUnit_day now n
    · exact applyUnit_yawm now n
  · intro now s hs
    unfold scrape_publish_date
    rw [hs]
  · intro now n u hu
    simp only [handledUnits, List.mem_cons, List.not_mem_nil, or_false, not_or] at hu
    obtain ⟨h1, h2, h3, h4, h5, h6, h7, h8, h9, h10⟩ := hu
    simp [applyUnit, h1, h2, h3, h4, h5, h6, h7, h8, h9, h10]

/-- Witness for C4: concrete phrases for each branch.  The timestamp
1700000000 is 2023-11-14 22:13:20, two days earlier is
2023-11-12 22:13:20. -/
theorem publish_date_parser_spec_witness :
    scrape_publish_date 1700000000 "2 Day" = fmtTimestamp (1700000000 - 2 * 86400)
    ∧ scrape_publish_date 1700000000 "soon" = "Invalid Relative Time"
    ∧ applyUnit 1700000000 2 "week" = "Unsupported time unit found." :=
  ⟨publish_date_parser_spec.1 1700000000 "2 Day" 2 "Day" rfl (Or.inl rfl),
   publish_date_parser_spec.2.1 1700000000 "soon" rfl,
   publish_date_parser_spec.2.2 1700000000 2 "week" (by decide)⟩

/-! ## Claim C5 -/

theorem uploadLoop_not_onDisk (ok : Nat → Bool) :
    ∀ (rem i : Nat), uploadLoop false ok i rem = (false, 0) := by
  intro rem
  induction rem with
  | zero => intro i; rfl
  | succ rem ih =>
    intro i
    simp only [uploadLoop, Bool.false_eq_true, if_false]
    exact ih (i + 1)

theorem uploadLoop_succeeds_iff (ok : Nat → Bool) :
    ∀ (rem i : Nat), (uploadLoop true ok i rem).1 = true ↔
      ∃ j, j < rem ∧ ok (i + j) = true := by
  intro rem
  induction rem with
  | zero =>
    intro i
    simp [uploadLoop]
  | succ rem ih =>
    intro i
    cases hi : ok i with
    | true =>
      simp only [uploadLoop, hi, if_true]
      constructor
      · intro _
        exact ⟨0, Nat.succ_pos rem, by simpa using hi⟩
      · intro _
        trivial
    | false =>
      simp only [uploadLoop, hi, Bool.false_eq_true, if_false, if_true]
      rw [ih (i + 1)]
      constructor
      · rintro ⟨j, hj, hok⟩
        refine ⟨j + 1, by omega, ?_⟩
        have he : i + 1 + j = i + (j + 1) := by omega
        rwa [he] at hok
      · rintro ⟨j, hj, hok⟩
        match j, hj, hok with
        | 0, _, hok => rw [Nat.add_zero] at hok; rw [hok] at hi; cases hi
        | j + 1, hj, hok =>
          refine ⟨j, by omega, ?_⟩
          have he : i + 1 + j = i + (j + 1) := by omega
          rwa [he]

theorem uploadLoop_calls_all_fail (ok : Nat → Bool) (h : ∀ j, ok j = false) :
    ∀ (rem i : Nat), (uploadLoop true ok i rem).2 = rem := by
  intro rem
  induction rem with
  | zero => intro i; rfl
  | succ rem ih =>
    intro i
    simp only [uploadLoop, h i, Bool.false_eq_true, if_false, if_true]
    rw [ih (i + 1)]

/-- Membership in the uploaded subset, as an iff. -/
theorem mem_upload_files_with_retry (disk : List String)
    (ok : String → Nat → Bool) :
    ∀ (files : List String) (f : String),
      f ∈ upload_files_with_retry disk ok files ↔
        f ∈ files ∧ disk.contains f = true ∧
          ∃ j, j < uploadRetries ∧ ok f j = true := by
  intro files
  induction files with
  | nil => intro f; simp [upload_files_with_retry]
  | cons g rest ih =>
    intro f
    simp only [upload_files_with_retry]
    cases hd : disk.contains g with
    | false =>
      rw [uploadLoop_not_onDisk]
      simp only [Bool.false_eq_true, if_false]
      rw [ih f]
      constructor
      · rintro ⟨hf, hc, hj⟩
        exact ⟨by simp [hf], hc, hj⟩
      · rintro ⟨hf, hc, hj⟩
        rcases List.mem_cons.mp hf with rfl | hf
        · rw [hd] at hc; cases hc
        · exact ⟨hf, hc, hj⟩
    | true =>
      cases hr : (uploadLoop true (ok g) 0 uploadRetries).1 with
      | true =>
        simp only [if_true, List.mem_cons]
        constructor
        · rintro (rfl | hf)
          · refine ⟨by simp, hd, ?_⟩
            have := (uploadLoop_succeeds_iff (ok f) uploadRetries 0).mp hr
            simpa using this
          · have := (ih f).mp hf
            exact ⟨by simp [this.1], this.2.1, this.2.2⟩
        · rintro ⟨hf, hc, hj⟩
          rcases hf with rfl | hf
          · exact Or.inl rfl
          · exact Or.inr ((ih f).mpr ⟨hf, hc, hj⟩)
      | false =>
        simp only [Bool.false_eq_true, if_false]
        rw [ih f]
        constructor
        · rintro ⟨hf, hc, hj⟩
          exact ⟨by simp [hf], hc, hj⟩
        · rintro ⟨hf, hc, hj⟩
          rcases List.mem_cons.mp hf with rfl | hf
          · exfalso
            have := (uploadLoop_succeeds_iff (ok f) uploadRetries 0).mpr
              (by simpa using hj)
            rw [this] at hr
            cases hr
          · exact ⟨hf, hc, hj⟩

/-- Claim C5: an existing file whose upload keeps failing gets exactly
upload_retries save_files calls before the coordinator gives up; a file
absent from disk is skipped silently with no upload call (and no
exception, the loop being total); and the returned list contains exactly
the files whose upload was confirmed within the retry budget. -/
theorem upload_retry_contract :
    (∀ (disk : List String) (ok : String → Nat → Bool) (f : String),
        disk.contains f = true → (∀ j, ok f j = false) →
        uploadCalls disk ok f = uploadRetries)
    ∧ (∀ (disk : List String) (ok : String → Nat → Bool) (f : String),
        disk.contains f = false → uploadCalls disk ok f = 0)
    ∧ (∀ (disk : List String) (ok : String → Nat → Bool)
          (files : List String) (f : String),
        f ∈ upload_files_with_retry disk ok files ↔
          f ∈ files ∧ disk.contains f = true ∧
            ∃ j, j < uploadRetries ∧ ok f j = true) := by
  refine ⟨?_, ?_, ?_⟩
  · intro disk ok f hd hfail
    unfold uploadCalls
    rw [hd]
    exact uploadLoop_calls_all_fail (ok f) hfail uploadRetries 0
  · intro disk ok f hd
    unfold uploadCalls
    rw [hd, uploadLoop_not_onDisk]
  · intro disk ok files f
    exact mem_upload_files_with_retry disk ok files f

/-- Witness for C5: a file that always fails gets 3 calls and is not
returned; a missing file gets no call; a file succeeding at attempt 1 is
returned. -/
theorem upload_retry_contract_witness :
    uploadCalls ["a.xlsx"] (fun _ _ => false) "a.xlsx" = uploadRetries
    ∧ uploadCalls ["a.xlsx"] (fun _ _ => false) "b.xlsx" = 0
    ∧ "a.xlsx" ∈ upload_files_with_retry ["a.xlsx"]
        (fun _ j => j == 1) ["a.xlsx"] :=
  ⟨upload_retry_contract.1 ["a.xlsx"] (fun _ _ => false) "a.xlsx" (by decide)
      (fun _ => rfl),
   upload_retry_contract.2.1 ["a.xlsx"] (fun _ _ => false) "b.xlsx" (by decide),
   (upload_retry_contract.2.2 ["a.xlsx"] (fun _ j => j == 1) ["a.xlsx"]
      "a.xlsx").mpr ⟨by decide, by decide, 1, by decide, rfl⟩⟩

/-! ## Claim C1 -/

theorem mem_of_mem_cleanup_files :
    ∀ (pending disk : List String) (f : String),
      f ∈ cleanup_files disk pending → f ∈ disk := by
  intro pending
  induction pending with
  | nil => intro disk f h; exact h
  | cons p rest ih =>
    intro disk f h
    have := ih (osRemove disk p) f h
    exact List.mem_of_mem_filter this

theorem not_mem_osRemove_self (disk : List String) (f : String) :
    f ∉ osRemove disk f := by
  intro h
  have := List.of_mem_filter h
  simp at this

/-- Counterexample for C1 as stated: a single pending file whose upload
fails every attempt is absent from the uploaded subset, yet the cleanup
loop removes it from disk anyway. -/
theorem cleanup_deletes_unuploaded_counterexample :
    chunkFinalize ["cats.xlsx"] (fun _ _ => false) ["cats.xlsx"] = ([], []) :=
  rfl

theorem not_mem_cleanup_of_mem :
    ∀ (pending disk : List String) (f : String),
      f ∈ pending → f ∉ cleanup_files disk pending := by
  intro pending
  induction pending with
  | nil => intro disk f h; cases h
  | cons p rest ih =>
    intro disk f h
    show f ∉ cleanup_files (osRemove disk p) rest
    rcases List.mem_cons.mp h with rfl | hf
    · by_cases hr : f ∈ rest
      · exact ih (osRemove disk f) f hr
      · intro hmem
        exact not_mem_osRemove_self disk f
          (mem_of_mem_cleanup_files rest (osRemove disk f) f hmem)
    · exact ih (osRemove disk p) f hf

/-- Claim C1 amended: after a chunk finalisation every file of the
pending set is removed from disk, regardless of whether its upload was
confirmed — the uploaded subset returned by the coordinator is not
consulted by the cleanup loop of main.py lines 158-163. -/
theorem cleanup_removes_all_pending (disk : List String)
    (ok : String → Nat → Bool) (pending : List String) (f : String)
    (h : f ∈ pending) : f ∉ (chunkFinalize disk ok pending).2 :=
  not_mem_cleanup_of_mem pending disk f h

/-- Witness for C1 amended: a pending file among others is gone from
disk after finalisation even though its upload failed. -/
theorem cleanup_removes_all_pending_witness :
    "dogs.xlsx" ∉ (chunkFinalize ["dogs.xlsx", "keep.txt"]
      (fun _ _ => false) ["dogs.xlsx"]).2 :=
  cleanup_removes_all_pending ["dogs.xlsx", "keep.txt"] (fun _ _ => false)
    ["dogs.xlsx"] "dogs.xlsx" (by decide)

/-! ## Claim C6 -/

/-- Claim C6: folder resolution has create-if-absent semantics — when a
folder of the target name already exists its identifier is reused and
the Drive state is unchanged; when it is absent exactly one folder is
created; and resolving twice for the same name yields the same
identifier with no second folder. -/
theorem folder_resolution_idempotent :
    (∀ (st : DriveState) (name : String) (fid : Nat),
        get_folder_id st name = some fid →
        resolveRunFolder st name = (fid, st))
    ∧ (∀ (st : DriveState) (name : String),
        get_folder_id st name = none →
        (resolveRunFolder st name).2.folders = st.folders ++ [(name, st.nextId)]
        ∧ folderCount (resolveRunFolder st name).2 name = 1)
    ∧ (∀ (st : DriveState) (name : String),
        resolveRunFolder (resolveRunFolder st name).2 name =
          ((resolveRunFolder st name).1, (resolveRunFolder st name).2)) := by
  have hfind : ∀ (st : DriveState) (name : String),
      get_folder_id st name = none →
      st.folders.find? (fun p => p.1 == name) = none := by
    intro st name h
    unfold get_folder_id at h
    cases hq : st.folders.find? (fun p => p.1 == name) with
    | none => rfl
    | some p => rw [hq] at h; cases h
  refine ⟨?_, ?_, ?_⟩
  · intro st name fid h
    unfold resolveRunFolder
    rw [h]
  · intro st name h
    unfold resolveRunFolder
    rw [h]
    constructor
    · rfl
    · show ((st.folders ++ [(name, st.nextId)]).countP (fun p => p.1 == name)) = 1
      rw [List.countP_append]
      have hz : st.folders.countP (fun p => p.1 == name) = 0 := by
        rw [List.countP_eq_zero]
        intro p hp hmem
        have := List.find?_eq_none.mp (hfind st name h) p hp
        exact this hmem
      rw [hz]
      simp [List.countP_cons]
  · intro st name
    cases h : get_folder_id st name with
    | some fid =>
      unfold resolveRunFolder
      rw [h]
      simp only []
      rw [h]
    | none =>
      unfold resolveRunFolder
      rw [h]
      have h2 : get_folder_id ⟨st.folders ++ [(name, st.nextId)], st.nextId + 1⟩
          name = some st.nextId := by
        show (List.find? (fun p => p.1 == name)
            (st.folders ++ [(name, st.nextId)])).map (fun p => p.2) = some st.nextId
        rw [List.find?_append, hfind st name h]
        simp
      simp only [create_folder]
      rw [h2]

/-- Witness for C6 at concrete Drive states: reuse of an existing folder
for the target date, a single creation when absent, and idempotence of
double resolution. -/
theorem folder_resolution_idempotent_witness :
    resolveRunFolder ⟨[("2024-06-01", 7)], 8⟩ "2024-06-01" =
      (7, ⟨[("2024-06-01", 7)], 8⟩)
    ∧ ((resolveRunFolder ⟨[], 0⟩ "2024-06-01").2.folders = [] ++ [("2024-06-01", 0)]
        ∧ folderCount (resolveRunFolder ⟨[], 0⟩ "2024-06-01").2 "2024-06-01" = 1)
    ∧ resolveRunFolder (resolveRunFolder ⟨[], 0⟩ "2024-06-01").2 "2024-06-01" =
        ((resolveRunFolder ⟨[], 0⟩ "2024-06-01").1,
          (resolveRunFolder ⟨[], 0⟩ "2024-06-01").2) :=
  ⟨folder_resolution_idempotent.1 ⟨[("2024-06-01", 7)], 8⟩ "2024-06-01" 7 rfl,
   folder_resolution_idempotent.2.1 ⟨[], 0⟩ "2024-06-01" rfl,
   folder_resolution_idempotent.2.2 ⟨[], 0⟩ "2024-06-01"⟩

/-! ## Claim C7 -/

/-- The gate invariant: running walkers plus free slots always equal the
capacity. -/
theorem sem_invariant {cap : Nat} {s : WalkerState}
    (h : SemReachable cap s) : s.running.length + s.avail = cap := by
  induction h with
  | init => simp
  | step _ hstep ih =>
    cases hstep with
    | acquire t s h =>
      simp only [List.length_cons]
      omega
    | release t s h =>
      simp only [List.length_erase_of_mem h]
      have := List.length_pos_of_mem h
      omega

/-- Claim C7: in every state reachable under the capacity gate the
number of walkers simultaneously inside their page loop never exceeds
the capacity (default 2), independently of how many tasks a chunk
spawned; and on 5 categories with chunk size 2 the chunk comprehension
forms chunks of sizes 2, 2, 1 preserving the original order. -/
theorem scheduler_bounds_concurrency :
    (∀ (cap : Nat) (s : WalkerState), SemReachable cap s →
        s.running.length ≤ cap)
    ∧ (∀ l : List String, l.length = 5 →
        (chunkCategories l 2).map List.length = [2, 2, 1]
        ∧ (chunkCategories l 2).flatten = l) := by
  constructor
  · intro cap s h
    have := sem_invariant h
    omega
  · intro l h
    obtain ⟨a, b, c, d, e, rfl⟩ : ∃ a b c d e, l = [a, b, c, d, e] := by
      rcases l with _ | ⟨a, _ | ⟨b, _ | ⟨c, _ | ⟨d, _ | ⟨e, _ | ⟨g, t⟩⟩⟩⟩⟩⟩ <;>
        simp_all
    have hl : ([a, b, c, d, e] : List String).length = 5 := rfl
    unfold chunkCategories
    rw [hl]
    exact ⟨rfl, rfl⟩

/-- Witness for C7: a concrete reachable state with two walkers running
under capacity 2 (two acquisitions from the initial state), and the
concrete chunking of five category names. -/
theorem scheduler_bounds_concurrency_witness :
    (WalkerState.mk [1, 0] 0).running.length ≤ 2
    ∧ (chunkCategories ["كلاب", "قطط", "طيور", "الخيل", "الماشية"] 2).map
        List.length = [2, 2, 1]
    ∧ (chunkCategories ["كلاب", "قطط", "طيور", "الخيل", "الماشية"] 2).flatten =
        ["كلاب", "قطط", "طيور", "الخيل", "الماشية"] :=
  ⟨scheduler_bounds_concurrency.1 2 ⟨[1, 0], 0⟩
      (SemReachable.step
        (SemReachable.step SemReachable.init
          (SemStep.acquire 0 ⟨[], 2⟩ (by decide)))
        (SemStep.acquire 1 ⟨[0], 1⟩ (by decide))),
   (scheduler_bounds_concurrency.2 ["كلاب", "قطط", "طيور", "الخيل", "الماشية"]
      rfl).1,
   (scheduler_bounds_concurrency.2 ["كلاب", "قطط", "طيور", "الخيل", "الماشية"]
      rfl).2⟩

/-! ## Claim C8 -/

/-- Claim C8: the archival sink produces no file for an empty record
list; for a non-empty list with a successful write it produces exactly
one file, named after the category, with one row per record; and a
write failure is reported exactly like the empty case, as no file. -/
theorem archival_sink_contract (name : String) (data : List Animal)
    (writeOk : Bool) :
    (data = [] → save_to_excel name data writeOk = none)
    ∧ (data ≠ [] → writeOk = true →
        ∃ file, save_to_excel name data writeOk = some file
          ∧ file.rows.length = data.length
          ∧ file.filename = name ++ ".xlsx")
    ∧ (writeOk = false → save_to_excel name data writeOk = none) := by
  refine ⟨?_, ?_, ?_⟩
  · intro h
    simp [save_to_excel, h]
  · intro h hw
    refine ⟨⟨name ++ ".xlsx", data⟩, ?_, rfl, rfl⟩
    simp [save_to_excel, h, hw]
  · intro hw
    simp [save_to_excel, hw]

/-- Witness for C8: one record yields one file with one row; the empty
list and the failed write yield none. -/
theorem archival_sink_contract_witness :
    save_to_excel "قطط" [] true = none
    ∧ (∃ file, save_to_excel "قطط" [⟨some "2024-06-01 10:00:00", 0⟩] true =
          some file
        ∧ file.rows.length = [(⟨some "2024-06-01 10:00:00", 0⟩ : Animal)].length
        ∧ file.filename = "قطط" ++ ".xlsx")
    ∧ save_to_excel "قطط" [⟨some "2024-06-01 10:00:00", 0⟩] false = none :=
  ⟨(archival_sink_contract "قطط" [] true).1 rfl,
   (archival_sink_contract "قطط" [⟨some "2024-06-01 10:00:00", 0⟩] true).2.1
      (by simp) rfl,
   (archival_sink_contract "قطط" [⟨some "2024-06-01 10:00:00", 0⟩] false).2.2
      rfl⟩

end Scrape4Sale
